import Mathlib

/-!
Verification development for the traveler-backend repository.

We give a shallow embedding of the image-ingestion pipeline of
`src/routes/trips.js` (the `POST /trips/:id` handler), of the image
persistence layer `Trip.addImage` of `src/models/trip.js` together with the
`images` table schema shipped with the repository, and of
`User.authenticate` of `src/models/user.js`.

External collaborators (the vision classifier, the S3 object store, bcrypt)
are modelled as inputs: their results are fields of an environment record,
so the handler is a pure function from request plus environment to an
outcome, a list of external-call effects and a final database state.
-/

/-- One landmark annotation as returned by the vision service:
the handler only ever reads its `description`. -/
structure Landmark where
  description : String
deriving DecidableEq, Repr

/-- The `tagData` object built by the `POST /trips/:id` handler:
five optional tag slots.  A JS `tags[i]` past the end of the array is
`undefined`, which we model as `none`. -/
structure TagData where
  tag1 : Option String
  tag2 : Option String
  tag3 : Option String
  tag4 : Option String
  tag5 : Option String
deriving DecidableEq, Repr

/-- The tag computation of `src/routes/trips.js` lines 133-154:
if no landmark was detected (`!ldmkArray || ldmkArray.length === 0`,
i.e. the empty list here) the five slots are the first five labels;
otherwise slot 1 is the first landmark's description and slots 2-5 are
the first four labels. -/
def resolveTags (ldmkArray : List Landmark) (tags : List String) : TagData :=
  match ldmkArray with
  | [] =>
      { tag1 := tags.get? 0
        tag2 := tags.get? 1
        tag3 := tags.get? 2
        tag4 := tags.get? 3
        tag5 := tags.get? 4 }
  | l :: _ =>
      { tag1 := some l.description
        tag2 := tags.get? 0
        tag3 := tags.get? 1
        tag4 := tags.get? 2
        tag5 := tags.get? 3 }

/-- A multer in-memory file (`req.file`): each property may be absent.
A JS `Buffer` is truthy even when empty, so only a missing buffer is
falsy; strings are falsy when missing or empty. -/
structure MFile where
  originalname : Option String
  buffer : Option (List Nat)
  mimetype : Option String
deriving DecidableEq, Repr

/-- JS falsiness of an optional string value: `undefined` and `""` are
falsy, every other string is truthy. -/
def strFalsy : Option String → Bool
  | none => true
  | some s => s == ""

/-- The `data` object passed to the S3 upload callback on success. -/
structure S3Data where
  location : String
deriving DecidableEq, Repr

/-- Errors raised by the database layer.  `fkViolation` models the
foreign-key constraint `trip_id INTEGER REFERENCES trips` of the `images`
table; `notFound` models the repository's `NotFoundError`. -/
inductive DbErr where
  | fkViolation (tripId : Int)
  | notFound (msg : String)
deriving DecidableEq, Repr

/-- A row of the `trips` table. -/
structure TripRow where
  id : Int
  userId : Int
  title : String
deriving DecidableEq, Repr

/-- A row of the `images` table, with exactly the columns of the
`CREATE TABLE images` statement shipped with the repository:
`id, file_url, trip_id, caption, tag1, tag2, tag3`. -/
structure ImageRow where
  id : Int
  file_url : String
  trip_id : Int
  caption : String
  tag1 : Option String
  tag2 : Option String
  tag3 : Option String
deriving DecidableEq, Repr

/-- The column names of the repository's `images` table, from its
`CREATE TABLE images` statement. -/
def imagesTableColumns : List String :=
  ["id", "file_url", "trip_id", "caption", "tag1", "tag2", "tag3"]

/-- Refinement target, following the words of the spec's persistence
contract (not the source): `images(id, file_url, trip_id, caption,
tag1..tag5)`. -/
def specImagesTableColumns : List String :=
  ["id", "file_url", "trip_id", "caption", "tag1", "tag2", "tag3", "tag4", "tag5"]

/-- The relational store: the two tables the pipeline touches, plus the
next value of the `images` id sequence. -/
structure DBState where
  trips : List TripRow
  images : List ImageRow
  nextImageId : Int
deriving DecidableEq, Repr

/-- The SQL `INSERT INTO images (file_url, trip_id, caption, tag1, tag2,
tag3) VALUES ...` issued by `Trip.addImage`, together with the database's
enforcement of the foreign key on `trip_id`: the insert succeeds and
returns the new id exactly when the referenced trip row exists. -/
def insertImage (db : DBState) (file_url : String) (trip_id : Int)
    (caption : String) (tag1 tag2 tag3 : Option String) :
    Except DbErr (Int × DBState) :=
  if db.trips.any (fun t => t.id == trip_id) then
    let row : ImageRow :=
      { id := db.nextImageId, file_url := file_url, trip_id := trip_id,
        caption := caption, tag1 := tag1, tag2 := tag2, tag3 := tag3 }
    Except.ok (db.nextImageId,
      { db with images := db.images ++ [row], nextImageId := db.nextImageId + 1 })
  else
    Except.error (DbErr.fkViolation trip_id)

/-- The `imageData` object the route passes to `Trip.addImage`:
`{ file_url, caption, ...tagData }`. -/
structure ImageData where
  file_url : String
  caption : String
  tag1 : Option String
  tag2 : Option String
  tag3 : Option String
  tag4 : Option String
  tag5 : Option String
deriving DecidableEq, Repr

namespace Trip

/-- The `Trip.addImage` method of `src/models/trip.js` lines 124-141: destructures
only `file_url, caption, tag1, tag2, tag3` from the image object and
issues a single INSERT; there is no existence check on the trip. -/
def addImage (tripId : Int) (image : ImageData) (db : DBState) :
    Except DbErr (Int × DBState) :=
  insertImage db image.file_url tripId image.caption
    image.tag1 image.tag2 image.tag3

end Trip

/-- A failure of the external vision service. -/
inductive VisionErr where
  | serviceFailure (msg : String)
deriving DecidableEq, Repr

/-- An error value travelling through the route. -/
inductive JsError where
  | vision (e : VisionErr)
  | db (e : DbErr)
deriving DecidableEq, Repr

/-- How a request to `POST /trips/:id` terminates.
`responded` is a response sent directly by the route;
`forwarded` is a call of `next(err)`, which hands the error to the
top-level error handler of `app.js`;
`unhandledRejection` is an exception thrown by an `await` inside the
`async` handler with no enclosing try/catch: under Express 4 such a
rejection is not passed to `next` and no response is sent. -/
inductive Outcome where
  | responded (status : Nat) (body : String)
  | forwarded (e : JsError)
  | unhandledRejection (e : JsError)
deriving DecidableEq, Repr

/-- An observable external call made by the handler. -/
inductive Effect where
  | classifyLandmarks
  | classifyLabels
  | s3Upload (key : String) (contentType : String)
  | dbInsert (tripId : Int) (image : ImageData)
deriving DecidableEq, Repr

deriving instance DecidableEq for Except

/-- The environment of one request: results of the external
collaborators, the clock value used for the S3 key suffix, and the
database state. -/
structure UploadEnv where
  landmarkRes : Except VisionErr (List Landmark)
  labelRes : Except VisionErr (List String)
  s3Res : Except String S3Data
  now : Nat
  db : DBState
deriving DecidableEq, Repr

/-- The result of running the handler: how it terminated, the external
calls it made in order, and the final database state. -/
structure RunResult where
  outcome : Outcome
  effects : List Effect
  db : DBState
deriving DecidableEq, Repr

/-- The `POST /trips/:id` handler of `src/routes/trips.js` lines 113-186,
step for step: the three validation checks (file present, caption
truthy, file properties truthy), the two classifier calls, the tag
computation, the S3 upload with its error-callback sending a 500
directly, and the `Trip.addImage` call whose failure is forwarded to
`next`. -/
def postTripImage (tripId : Int) (file : Option MFile)
    (caption : Option String) (env : UploadEnv) : RunResult :=
  match file with
  | none => ⟨Outcome.responded 400 "No file uploaded.", [], env.db⟩
  | some f =>
    if strFalsy caption then
      ⟨Outcome.responded 400 "No caption for file.", [], env.db⟩
    else if strFalsy f.originalname || f.buffer.isNone || strFalsy f.mimetype then
      ⟨Outcome.responded 400 "Uploaded file is missing required properties.",
        [], env.db⟩
    else
      match env.landmarkRes with
      | Except.error e =>
          ⟨Outcome.unhandledRejection (JsError.vision e),
            [Effect.classifyLandmarks], env.db⟩
      | Except.ok ldmkArray =>
        match env.labelRes with
        | Except.error e =>
            ⟨Outcome.unhandledRejection (JsError.vision e),
              [Effect.classifyLandmarks, Effect.classifyLabels], env.db⟩
        | Except.ok tags =>
          let tagData := resolveTags ldmkArray tags
          let key :=
            "tripimages/" ++ f.originalname.getD "" ++ "-" ++ toString env.now
          let ct := f.mimetype.getD ""
          match env.s3Res with
          | Except.error _ =>
              ⟨Outcome.responded 500 "Error uploading image to S3",
                [Effect.classifyLandmarks, Effect.classifyLabels,
                  Effect.s3Upload key ct], env.db⟩
          | Except.ok data =>
            let imageData : ImageData :=
              { file_url := data.location, caption := caption.getD "",
                tag1 := tagData.tag1, tag2 := tagData.tag2,
                tag3 := tagData.tag3, tag4 := tagData.tag4,
                tag5 := tagData.tag5 }
            match Trip.addImage tripId imageData env.db with
            | Except.error e =>
                ⟨Outcome.forwarded (JsError.db e),
                  [Effect.classifyLandmarks, Effect.classifyLabels,
                    Effect.s3Upload key ct, Effect.dbInsert tripId imageData],
                  env.db⟩
            | Except.ok (_, db2) =>
                ⟨Outcome.responded 201
                    ("File uploaded successfully. URL: " ++ data.location),
                  [Effect.classifyLandmarks, Effect.classifyLabels,
                    Effect.s3Upload key ct, Effect.dbInsert tripId imageData],
                  db2⟩

/-- The tag slots carried by a `dbInsert` effect, if any. -/
def effectTags : Effect → Option TagData
  | Effect.dbInsert _ img => some ⟨img.tag1, img.tag2, img.tag3, img.tag4, img.tag5⟩
  | _ => none

/-- The tag slots of the image the handler handed to persistence, if it
reached that step. -/
def insertedTags (r : RunResult) : Option TagData :=
  r.effects.findSome? effectTags

/-- A row of the `users` table, with the columns selected by the
`User.authenticate` query of `src/models/user.js`. -/
structure UserRow where
  username : String
  password : String
  firstName : String
  lastName : String
  profImage : String
  about : String
deriving DecidableEq, Repr

/-- The JS object built for one row by the `SELECT username, password,
first_name AS "firstName", ... FROM users WHERE username = $1` query:
an association list of field names to values.  Note that it does
select the `password` column. -/
def userQueryRow (row : UserRow) : List (String × String) :=
  [("username", row.username), ("password", row.password),
   ("firstName", row.firstName), ("lastName", row.lastName),
   ("profImage", row.profImage), ("about", row.about)]

/-- The JS `delete obj.key` operation on an object modelled as an
association list: the key is removed. -/
def jsDelete (key : String) (obj : List (String × String)) :
    List (String × String) :=
  obj.filter (fun kv => kv.fst != key)

/-- The repository's `UnauthorizedError`. -/
inductive AuthErr where
  | unauthorized (msg : String)
deriving DecidableEq, Repr

namespace User

/-- The `User.authenticate` method of `src/models/user.js` lines 23-49: query the
user row by username (`result.rows[0]`), compare the password against
the stored bcrypt hash (bcrypt is an external collaborator, passed as
the `compare` oracle), on success `delete user.password` and return the
object, otherwise throw `UnauthorizedError`. -/
def authenticate (users : List UserRow) (compare : String → String → Bool)
    (username password : String) :
    Except AuthErr (List (String × String)) :=
  match users.filter (fun r => r.username == username) with
  | [] => Except.error (AuthErr.unauthorized "Invalid username/password")
  | row :: _ =>
    if compare password row.password then
      Except.ok (jsDelete "password" (userQueryRow row))
    else
      Except.error (AuthErr.unauthorized "Invalid username/password")

end User

/-! Concrete data used to exercise the definitions. -/

/-- A well-formed multer file. -/
def photoFile : MFile :=
  { originalname := some "photo.jpg", buffer := some [137, 80, 78, 71],
    mimetype := some "image/jpeg" }

/-- A database holding the single trip 1. -/
def parisDB : DBState :=
  { trips := [{ id := 1, userId := 1, title := "Paris" }],
    images := [], nextImageId := 1 }

/-- The environment of the spec's Eiffel-Tower scenario: the classifier
returns one landmark and five labels, the upload succeeds, trip 1
exists. -/
def eiffelEnv : UploadEnv :=
  { landmarkRes := Except.ok [{ description := "Eiffel Tower" }],
    labelRes := Except.ok ["tower", "sky", "architecture", "landmark", "europe"],
    s3Res := Except.ok { location := "https://bucket/photo.jpg-1000" },
    now := 1000,
    db := parisDB }

/-- The HTTP status of a response the route sent itself, if any. -/
def statusOf : Outcome → Option Nat
  | Outcome.responded s _ => some s
  | _ => none

/-- Whether the request's error reached the top-level error handler of
`app.js`, i.e. whether the route called `next(err)`. -/
def reachesTopHandler : Outcome → Bool
  | Outcome.forwarded _ => true
  | _ => false

/-- An environment in which the vision service is down. -/
def visionDownEnv : UploadEnv :=
  { landmarkRes := Except.error (VisionErr.serviceFailure "vision down"),
    labelRes := Except.error (VisionErr.serviceFailure "vision down"),
    s3Res := Except.ok { location := "https://bucket/x" },
    now := 0,
    db := parisDB }

/-- An environment in which only label detection fails. -/
def labelFailEnv : UploadEnv :=
  { landmarkRes := Except.ok [],
    labelRes := Except.error (VisionErr.serviceFailure "label down"),
    s3Res := Except.ok { location := "https://bucket/x" },
    now := 0,
    db := parisDB }

/-- An environment in which classification succeeds but the S3 upload
fails. -/
def s3FailEnv : UploadEnv :=
  { landmarkRes := Except.ok [],
    labelRes := Except.ok ["beach", "sea"],
    s3Res := Except.error "timeout",
    now := 5,
    db := parisDB }

/-- An environment in which everything external succeeds but the
database holds no trips at all. -/
def noTripEnv : UploadEnv :=
  { landmarkRes := Except.ok [],
    labelRes := Except.ok ["beach"],
    s3Res := Except.ok { location := "https://bucket/y" },
    now := 9,
    db := { trips := [], images := [], nextImageId := 1 } }

/-- An environment in which the classifier finds nothing at all. -/
def nothingFoundEnv : UploadEnv :=
  { landmarkRes := Except.ok [],
    labelRes := Except.ok [],
    s3Res := Except.ok { location := "https://bucket/z" },
    now := 3,
    db := parisDB }

/-! Theorems. -/

/-- C2: whenever the landmark result is non-empty, the computed tag set
has `tag1` equal to the first landmark's description and `tag2..tag5`
equal to the first four labels in rank order, a slot being `none` when
fewer labels are available. -/
theorem resolveTags_with_landmark (l : Landmark) (ls : List Landmark)
    (tags : List String) :
    resolveTags (l :: ls) tags =
      { tag1 := some l.description, tag2 := tags.get? 0,
        tag3 := tags.get? 1, tag4 := tags.get? 2, tag5 := tags.get? 3 } :=
  rfl

/-- C6: whenever the landmark result is empty, the computed tag set is
the first five labels in rank order, a slot being `none` when fewer
labels are available; in particular six labels a..f give exactly
{a, b, c, d, e}. -/
theorem resolveTags_without_landmark (tags : List String) :
    resolveTags [] tags =
      { tag1 := tags.get? 0, tag2 := tags.get? 1, tag3 := tags.get? 2,
        tag4 := tags.get? 3, tag5 := tags.get? 4 }
    ∧ resolveTags [] ["a", "b", "c", "d", "e", "f"] =
      { tag1 := some "a", tag2 := some "b", tag3 := some "c",
        tag4 := some "d", tag5 := some "e" } :=
  ⟨rfl, rfl⟩

/-- C1, counterexample: in the Eiffel-Tower scenario the row written to
the `images` table is exactly the three-tag row (tag1 = "Eiffel Tower",
tag2 = "tower", tag3 = "sky"); the `images` table of the repository has
no `tag4` column at all, so its rows cannot carry tag4 =
"architecture", and the table's columns differ from the spec's
five-tag persistence contract. -/
theorem eiffel_row_has_no_tag4 :
    (postTripImage 1 (some photoFile) (some "Paris!") eiffelEnv).db.images =
      [{ id := 1, file_url := "https://bucket/photo.jpg-1000", trip_id := 1,
         caption := "Paris!", tag1 := some "Eiffel Tower",
         tag2 := some "tower", tag3 := some "sky" }]
    ∧ "tag4" ∉ imagesTableColumns
    ∧ imagesTableColumns ≠ specImagesTableColumns := by
  decide

/-- C1, amended: in the Eiffel-Tower scenario the handler computes the
five slots (Eiffel Tower, tower, sky, architecture, landmark) and hands
them to persistence, but `Trip.addImage` destructures only
`tag1..tag3`, so the persisted row carries tag1 = "Eiffel Tower",
tag2 = "tower", tag3 = "sky" and nothing else: the repository's
`images` table has only three tag columns. -/
theorem eiffel_row_persists_three_tags :
    (postTripImage 1 (some photoFile) (some "Paris!") eiffelEnv).outcome =
      Outcome.responded 201
        "File uploaded successfully. URL: https://bucket/photo.jpg-1000"
    ∧ insertedTags (postTripImage 1 (some photoFile) (some "Paris!") eiffelEnv) =
      some { tag1 := some "Eiffel Tower", tag2 := some "tower",
             tag3 := some "sky", tag4 := some "architecture",
             tag5 := some "landmark" }
    ∧ (postTripImage 1 (some photoFile) (some "Paris!") eiffelEnv).db.images =
      [{ id := 1, file_url := "https://bucket/photo.jpg-1000", trip_id := 1,
         caption := "Paris!", tag1 := some "Eiffel Tower",
         tag2 := some "tower", tag3 := some "sky" }] := by
  decide

/-- C9: `Trip.addImage` never produces the repository's `NotFoundError`,
and when the given trip id matches no trip row the insert fails with
the database's foreign-key violation: there is no prior existence
check. -/
theorem addImage_fk_only (tripId : Int) (image : ImageData) (db : DBState) :
    (∀ msg, Trip.addImage tripId image db ≠ Except.error (DbErr.notFound msg))
    ∧ (db.trips.any (fun t => t.id == tripId) = false →
        Trip.addImage tripId image db = Except.error (DbErr.fkViolation tripId)) := by
  constructor
  · intro msg h
    unfold Trip.addImage insertImage at h
    by_cases hmem : db.trips.any (fun t => t.id == tripId)
    · simp [hmem] at h
    · simp [hmem] at h
  · intro hmem
    unfold Trip.addImage insertImage
    simp [hmem]

/-- C4: when the file is missing, the caption is falsy, or a required
file property (original name, buffer, MIME type) is falsy, the handler
answers 400 having made no external call: no classifier call, no S3
upload, no insert, and the database is unchanged. -/
theorem validation_fails_fast (tid : Int) (file : Option MFile)
    (c : Option String) (env : UploadEnv)
    (h : file = none ∨ strFalsy c = true ∨
      ∃ f, file = some f ∧
        (strFalsy f.originalname || f.buffer.isNone || strFalsy f.mimetype) = true) :
    statusOf (postTripImage tid file c env).outcome = some 400
    ∧ (postTripImage tid file c env).effects = []
    ∧ (postTripImage tid file c env).db = env.db := by
  rcases h with h | h | ⟨f, rfl, hf⟩
  · subst h
    exact ⟨rfl, rfl, rfl⟩
  · cases file with
    | none => exact ⟨rfl, rfl, rfl⟩
    | some f => simp [postTripImage, h, statusOf]
  · by_cases hc : strFalsy c = true
    · simp [postTripImage, hc, statusOf]
    · simp [postTripImage, hc, hf, statusOf]

/-- C4, witness: a request with a file but no caption. -/
theorem validation_fails_fast_at_missing_caption :
    statusOf (postTripImage 1 (some photoFile) none eiffelEnv).outcome = some 400
    ∧ (postTripImage 1 (some photoFile) none eiffelEnv).effects = []
    ∧ (postTripImage 1 (some photoFile) none eiffelEnv).db = eiffelEnv.db :=
  validation_fails_fast 1 (some photoFile) none eiffelEnv
    (Or.inr (Or.inl (by decide)))

/-- C5: when the upload to the object store fails, the handler answers
500 with the S3 error body, `Trip.addImage` is never invoked (the
effect trace ends at the S3 upload, with no insert effect), and the
database is unchanged. -/
theorem upload_failure_writes_no_row (tid : Int) (f : MFile)
    (c : Option String) (env : UploadEnv) (L : List Landmark)
    (T : List String) (msg : String)
    (hc : strFalsy c = false)
    (hp : (strFalsy f.originalname || f.buffer.isNone || strFalsy f.mimetype) = false)
    (hL : env.landmarkRes = Except.ok L)
    (hT : env.labelRes = Except.ok T)
    (hs : env.s3Res = Except.error msg) :
    postTripImage tid (some f) c env =
      { outcome := Outcome.responded 500 "Error uploading image to S3",
        effects := [Effect.classifyLandmarks, Effect.classifyLabels,
          Effect.s3Upload
            ("tripimages/" ++ f.originalname.getD "" ++ "-" ++ toString env.now)
            (f.mimetype.getD "")],
        db := env.db } := by
  simp [postTripImage, hc, hp, hL, hT, hs]

/-- C5, witness. -/
theorem upload_failure_writes_no_row_at_timeout :
    postTripImage 1 (some photoFile) (some "beach day") s3FailEnv =
      { outcome := Outcome.responded 500 "Error uploading image to S3",
        effects := [Effect.classifyLandmarks, Effect.classifyLabels,
          Effect.s3Upload
            ("tripimages/" ++ photoFile.originalname.getD "" ++ "-" ++
              toString s3FailEnv.now)
            (photoFile.mimetype.getD "")],
        db := s3FailEnv.db } :=
  upload_failure_writes_no_row 1 photoFile (some "beach day") s3FailEnv
    [] ["beach", "sea"] "timeout" (by decide) (by decide) rfl rfl rfl

/-- C7: when the classifier returns no landmarks and no labels, every
tag slot is `none`, and the pipeline still uploads the file and
persists the row, which carries only the URL and the caption: the
three tag columns of the written row are all null and the response is
the 201 success message. -/
theorem empty_classifier_still_persists (tid : Int) (f : MFile)
    (cap : String) (env : UploadEnv) (d : S3Data)
    (hc : strFalsy (some cap) = false)
    (hp : (strFalsy f.originalname || f.buffer.isNone || strFalsy f.mimetype) = false)
    (hL : env.landmarkRes = Except.ok [])
    (hT : env.labelRes = Except.ok [])
    (hs : env.s3Res = Except.ok d)
    (htrip : env.db.trips.any (fun t => t.id == tid) = true) :
    resolveTags [] [] =
      { tag1 := none, tag2 := none, tag3 := none, tag4 := none, tag5 := none }
    ∧ postTripImage tid (some f) (some cap) env =
      { outcome := Outcome.responded 201
          ("File uploaded successfully. URL: " ++ d.location),
        effects := [Effect.classifyLandmarks, Effect.classifyLabels,
          Effect.s3Upload
            ("tripimages/" ++ f.originalname.getD "" ++ "-" ++ toString env.now)
            (f.mimetype.getD ""),
          Effect.dbInsert tid
            { file_url := d.location, caption := cap, tag1 := none,
              tag2 := none, tag3 := none, tag4 := none, tag5 := none }],
        db := { env.db with
          images := env.db.images ++
            [{ id := env.db.nextImageId, file_url := d.location,
               trip_id := tid, caption := cap, tag1 := none, tag2 := none,
               tag3 := none }],
          nextImageId := env.db.nextImageId + 1 } } := by
  refine ⟨rfl, ?_⟩
  simp [postTripImage, hc, hp, hL, hT, hs, Trip.addImage, insertImage, htrip,
    resolveTags]

/-- C7, witness. -/
theorem empty_classifier_still_persists_at_paris :
    resolveTags [] [] =
      { tag1 := none, tag2 := none, tag3 := none, tag4 := none, tag5 := none }
    ∧ postTripImage 1 (some photoFile) (some "just us") nothingFoundEnv =
      { outcome := Outcome.responded 201
          ("File uploaded successfully. URL: " ++
            (S3Data.mk "https://bucket/z").location),
        effects := [Effect.classifyLandmarks, Effect.classifyLabels,
          Effect.s3Upload
            ("tripimages/" ++ photoFile.originalname.getD "" ++ "-" ++
              toString nothingFoundEnv.now)
            (photoFile.mimetype.getD ""),
          Effect.dbInsert 1
            { file_url := (S3Data.mk "https://bucket/z").location,
              caption := "just us", tag1 := none, tag2 := none,
              tag3 := none, tag4 := none, tag5 := none }],
        db := { nothingFoundEnv.db with
          images := nothingFoundEnv.db.images ++
            [{ id := nothingFoundEnv.db.nextImageId,
               file_url := (S3Data.mk "https://bucket/z").location,
               trip_id := 1, caption := "just us", tag1 := none,
               tag2 := none, tag3 := none }],
          nextImageId := nothingFoundEnv.db.nextImageId + 1 } } :=
  empty_classifier_still_persists 1 photoFile "just us" nothingFoundEnv
    (S3Data.mk "https://bucket/z") (by decide) (by decide) rfl rfl rfl
    (by decide)

/-- In any run that passes validation, classifies successfully and
uploads successfully, the tag slots handed to persistence are exactly
`resolveTags` of the two classifier results — whether or not the
insert itself succeeds. -/
theorem insertedTags_run (tid : Int) (f : MFile) (c : Option String)
    (env : UploadEnv) (L : List Landmark) (T : List String) (d : S3Data)
    (hc : strFalsy c = false)
    (hp : (strFalsy f.originalname || f.buffer.isNone || strFalsy f.mimetype) = false)
    (hL : env.landmarkRes = Except.ok L)
    (hT : env.labelRes = Except.ok T)
    (hs : env.s3Res = Except.ok d) :
    insertedTags (postTripImage tid (some f) c env) = some (resolveTags L T) := by
  simp only [postTripImage, hc, hp, hL, hT, hs, Bool.false_eq_true, if_false]
  split <;> simp [insertedTags, effectTags]

/-- C8: tag resolution is deterministic and free of hidden state — two
runs of the handler that agree on the classifier results, however much
they differ in trip id, file, caption, clock, object-store answer and
database, hand the same tag slots to persistence, namely
`resolveTags` of those classifier results. -/
theorem tag_resolution_pure (tid₁ tid₂ : Int) (f₁ f₂ : MFile)
    (c₁ c₂ : Option String) (env₁ env₂ : UploadEnv)
    (L : List Landmark) (T : List String) (d₁ d₂ : S3Data)
    (hc₁ : strFalsy c₁ = false)
    (hp₁ : (strFalsy f₁.originalname || f₁.buffer.isNone || strFalsy f₁.mimetype) = false)
    (hL₁ : env₁.landmarkRes = Except.ok L)
    (hT₁ : env₁.labelRes = Except.ok T)
    (hs₁ : env₁.s3Res = Except.ok d₁)
    (hc₂ : strFalsy c₂ = false)
    (hp₂ : (strFalsy f₂.originalname || f₂.buffer.isNone || strFalsy f₂.mimetype) = false)
    (hL₂ : env₂.landmarkRes = Except.ok L)
    (hT₂ : env₂.labelRes = Except.ok T)
    (hs₂ : env₂.s3Res = Except.ok d₂) :
    insertedTags (postTripImage tid₁ (some f₁) c₁ env₁) =
      insertedTags (postTripImage tid₂ (some f₂) c₂ env₂)
    ∧ insertedTags (postTripImage tid₁ (some f₁) c₁ env₁) =
      some (resolveTags L T) := by
  have h₁ := insertedTags_run tid₁ f₁ c₁ env₁ L T d₁ hc₁ hp₁ hL₁ hT₁ hs₁
  have h₂ := insertedTags_run tid₂ f₂ c₂ env₂ L T d₂ hc₂ hp₂ hL₂ hT₂ hs₂
  exact ⟨h₁.trans h₂.symm, h₁⟩

/-- A second multer file, different from `photoFile` in every field. -/
def otherFile : MFile :=
  { originalname := some "other.png", buffer := some [0],
    mimetype := some "image/png" }

/-- A second environment that agrees with `eiffelEnv` on the classifier
results only: different S3 answer, clock and database. -/
def otherEiffelEnv : UploadEnv :=
  { landmarkRes := Except.ok [{ description := "Eiffel Tower" }],
    labelRes := Except.ok ["tower", "sky", "architecture", "landmark", "europe"],
    s3Res := Except.ok { location := "https://bucket/q" },
    now := 77,
    db := { trips := [{ id := 2, userId := 5, title := "Q" }],
            images := [], nextImageId := 4 } }

/-- C8, witness: two requests differing in trip id, file, caption,
clock and S3 answer but with equal classifier results. -/
theorem tag_resolution_pure_at_two_runs :
    insertedTags (postTripImage 1 (some photoFile) (some "Paris!") eiffelEnv) =
      insertedTags (postTripImage 2 (some otherFile) (some "elsewhere")
        otherEiffelEnv)
    ∧ insertedTags (postTripImage 1 (some photoFile) (some "Paris!") eiffelEnv) =
      some (resolveTags [{ description := "Eiffel Tower" }]
        ["tower", "sky", "architecture", "landmark", "europe"]) :=
  tag_resolution_pure 1 2 photoFile otherFile
    (some "Paris!") (some "elsewhere") eiffelEnv otherEiffelEnv
    [{ description := "Eiffel Tower" }]
    ["tower", "sky", "architecture", "landmark", "europe"]
    { location := "https://bucket/photo.jpg-1000" }
    { location := "https://bucket/q" }
    (by decide) (by decide) rfl rfl rfl (by decide) (by decide) rfl rfl rfl

/-- C3, counterexample: when landmark detection throws, the `await`
inside the `async` handler rejects with no enclosing try/catch, so the
error never reaches `next` — it is swallowed, with no response sent:
the outcome is an unhandled rejection and not a forwarding to the
top-level error handler. -/
theorem classification_error_swallowed :
    (postTripImage 1 (some photoFile) (some "Paris!") visionDownEnv).outcome =
      Outcome.unhandledRejection
        (JsError.vision (VisionErr.serviceFailure "vision down"))
    ∧ reachesTopHandler
        (postTripImage 1 (some photoFile) (some "Paris!") visionDownEnv).outcome
      = false := by
  decide

/-- C3, amended: of the three pipeline error kinds, only the
persistence failure is forwarded to the top-level error handler via
`next(err)`; an upload failure is answered directly by the route with
a 500, never reaching that handler; a classification failure (in
either classifier call) is caught nowhere and is swallowed as an
unhandled rejection of the async handler. -/
theorem error_routing (tid : Int) (f : MFile) (c : Option String)
    (env : UploadEnv)
    (hc : strFalsy c = false)
    (hp : (strFalsy f.originalname || f.buffer.isNone || strFalsy f.mimetype) = false) :
    (∀ e, env.landmarkRes = Except.error e →
      (postTripImage tid (some f) c env).outcome =
        Outcome.unhandledRejection (JsError.vision e))
    ∧ (∀ L e, env.landmarkRes = Except.ok L →
        env.labelRes = Except.error e →
      (postTripImage tid (some f) c env).outcome =
        Outcome.unhandledRejection (JsError.vision e))
    ∧ (∀ L T m, env.landmarkRes = Except.ok L → env.labelRes = Except.ok T →
        env.s3Res = Except.error m →
      (postTripImage tid (some f) c env).outcome =
        Outcome.responded 500 "Error uploading image to S3")
    ∧ (∀ L T d, env.landmarkRes = Except.ok L → env.labelRes = Except.ok T →
        env.s3Res = Except.ok d →
        env.db.trips.any (fun t => t.id == tid) = false →
      (postTripImage tid (some f) c env).outcome =
        Outcome.forwarded (JsError.db (DbErr.fkViolation tid))) := by
  refine ⟨?_, ?_, ?_, ?_⟩
  · intro e hL
    simp [postTripImage, hc, hp, hL]
  · intro L e hL hT
    simp [postTripImage, hc, hp, hL, hT]
  · intro L T m hL hT hs
    simp [postTripImage, hc, hp, hL, hT, hs]
  · intro L T d hL hT hs htrip
    simp [postTripImage, hc, hp, hL, hT, hs, Trip.addImage, insertImage, htrip]

/-- C3 (amended), witness: a swallowed landmark failure, a swallowed
label failure, a locally answered upload failure, and a forwarded
persistence failure, each at a concrete environment. -/
theorem error_routing_at_concrete_envs :
    (postTripImage 1 (some photoFile) (some "x") visionDownEnv).outcome =
      Outcome.unhandledRejection
        (JsError.vision (VisionErr.serviceFailure "vision down"))
    ∧ (postTripImage 1 (some photoFile) (some "x") labelFailEnv).outcome =
      Outcome.unhandledRejection
        (JsError.vision (VisionErr.serviceFailure "label down"))
    ∧ (postTripImage 1 (some photoFile) (some "x") s3FailEnv).outcome =
      Outcome.responded 500 "Error uploading image to S3"
    ∧ (postTripImage 1 (some photoFile) (some "x") noTripEnv).outcome =
      Outcome.forwarded (JsError.db (DbErr.fkViolation 1)) :=
  ⟨(error_routing 1 photoFile (some "x") visionDownEnv (by decide) (by decide)).1
      (VisionErr.serviceFailure "vision down") rfl,
    (error_routing 1 photoFile (some "x") labelFailEnv (by decide) (by decide)).2.1
      [] (VisionErr.serviceFailure "label down") rfl rfl,
    (error_routing 1 photoFile (some "x") s3FailEnv (by decide) (by decide)).2.2.1
      [] ["beach", "sea"] "timeout" rfl rfl rfl,
    (error_routing 1 photoFile (some "x") noTripEnv (by decide) (by decide)).2.2.2
      [] ["beach"] { location := "https://bucket/y" } rfl rfl rfl (by decide)⟩

/-- C10: whenever `User.authenticate` returns successfully, the
returned object carries no `password` field — it is the selected row's
object with the password deleted, although that underlying query row
did carry the stored bcrypt hash under `password`. -/
theorem authenticate_strips_password (users : List UserRow)
    (compare : String → String → Bool) (u p : String)
    (obj : List (String × String))
    (h : User.authenticate users compare u p = Except.ok obj) :
    obj.lookup "password" = none
    ∧ ∃ row, row ∈ users ∧ row.username = u ∧ compare p row.password = true
        ∧ obj = jsDelete "password" (userQueryRow row)
        ∧ (userQueryRow row).lookup "password" = some row.password := by
  unfold User.authenticate at h
  cases hf : users.filter (fun r => r.username == u) with
  | nil =>
    rw [hf] at h
    exact absurd h (by simp)
  | cons row rest =>
    rw [hf] at h
    dsimp only at h
    by_cases hcmp : compare p row.password = true
    · rw [if_pos hcmp] at h
      have hobj : obj = jsDelete "password" (userQueryRow row) :=
        (Except.ok.injEq _ _ ▸ h).symm
      have hrowmem : row ∈ users.filter (fun r => r.username == u) := by
        rw [hf]; exact List.mem_cons_self row rest
      have hbeq : (row.username == u) = true := by
        simpa using List.of_mem_filter hrowmem
      refine ⟨?_, row, List.mem_of_mem_filter hrowmem,
        eq_of_beq hbeq, hcmp, hobj, by
          simp [userQueryRow, List.lookup]⟩
      subst hobj
      simp [jsDelete, userQueryRow, List.lookup]
    · rw [if_neg hcmp] at h
      exact absurd h (by simp)

/-- C10, witness. -/
theorem authenticate_strips_password_at_bob :
    (User.authenticate
        [{ username := "bob", password := "hash", firstName := "B",
           lastName := "Ob", profImage := "i", about := "a" }]
        (fun pw stored => pw == "pw" && stored == "hash") "bob" "pw" =
      Except.ok [("username", "bob"), ("firstName", "B"), ("lastName", "Ob"),
        ("profImage", "i"), ("about", "a")])
    ∧ ([("username", "bob"), ("firstName", "B"), ("lastName", "Ob"),
        ("profImage", "i"), ("about", "a")] :
          List (String × String)).lookup "password" = none :=
  ⟨by decide,
    (authenticate_strips_password
      [{ username := "bob", password := "hash", firstName := "B",
         lastName := "Ob", profImage := "i", about := "a" }]
      (fun pw stored => pw == "pw" && stored == "hash") "bob" "pw"
      [("username", "bob"), ("firstName", "B"), ("lastName", "Ob"),
        ("profImage", "i"), ("about", "a")] (by decide)).1⟩

/-- C9, witness. -/
theorem addImage_fk_only_at_empty_db :
    (Trip.addImage 7
        { file_url := "u", caption := "c", tag1 := none, tag2 := none,
          tag3 := none, tag4 := none, tag5 := none }
        { trips := [], images := [], nextImageId := 1 } ≠
      Except.error (DbErr.notFound "No trip: 7"))
    ∧ (Trip.addImage 7
        { file_url := "u", caption := "c", tag1 := none, tag2 := none,
          tag3 := none, tag4 := none, tag5 := none }
        { trips := [], images := [], nextImageId := 1 } =
      Except.error (DbErr.fkViolation 7)) :=
  ⟨(addImage_fk_only 7 _ _).1 "No trip: 7", (addImage_fk_only 7 _ _).2 (by decide)⟩
